/-
Verification of the ChessCoordinateTraining core logic.

This file gives a shallow embedding, in Lean 4, of the game-state and
scoring engine of the repository: coordinate generation and perspective-aware
click validation (src/src/core/game_logic.py, class ChessBoardState),
per-session statistics and scoring (src/src/core/stats.py, class GameSession,
and src/src/core/game_logic.py, class GamePerformance), and history
persistence (src/src/core/stats.py, class PerformanceTracker) together with
the unload operation of src/main.py (class ChessTrainer).

Modelling conventions:
  * Python ints are modelled by Int (or Nat for counters that are only ever
    incremented from zero), Python floats by Rat with exact arithmetic.
  * Python `float(inf)`, used as the sentinel for `fastest_response`, is
    modelled by `Option Rat` with `none` standing for the infinite sentinel;
    `min(inf, t) = t` and `x != inf` translate accordingly.
  * Python `int(x)` truncates toward zero; this is `pyInt` below.
  * `random.randint(a, b)` returns an arbitrary integer in the inclusive
    range [a, b]; a draw is modelled as an extra argument constrained by
    that range in the theorems.
  * Raised-and-caught exceptions are modelled by returning the (partially
    mutated) state together with an `Option String` error message.
-/

import Mathlib

/-- Python `int()` conversion: truncation toward zero (floor for
nonnegative arguments, ceiling for negative ones). -/
def pyInt (q : ℚ) : ℤ :=
  if 0 ≤ q then ⌊q⌋ else ⌈q⌉

/-- Configuration dataclass `GameConfig` of src/src/core/game_logic.py
with its field defaults. -/
structure GameConfig where
  GRID_SIZE : ℤ := 8
  TILE_SIZE : ℤ := 60
  MIN_DURATION : ℤ := 5
  MAX_DURATION : ℤ := 60
  DEFAULT_DURATION : ℤ := 30
  BASE_SCORE_PER_CORRECT : ℤ := 100
  PENALTY_PER_WRONG : ℤ := 50
  SPEED_BONUS_MAX : ℤ := 500

/-- The configuration actually used at run time: every constructor in the
source instantiates `GameConfig()` with all defaults and never mutates it. -/
def defaultConfig : GameConfig := {}

/-- State of class `ChessBoardState` (game_logic.py): perspective flag and
the current target in canonical (col, row) grid form, `none` when idle. -/
structure ChessBoardState where
  is_white_perspective : Bool
  current_coordinate : Option (ℤ × ℤ)

/-- `ChessBoardState.__init__`: white perspective, no target. -/
def ChessBoardState.init : ChessBoardState :=
  { is_white_perspective := true, current_coordinate := none }

/-- `ChessBoardState.flip_perspective` (game_logic.py line 31): toggles the
perspective flag, nothing else. -/
def ChessBoardState.flip_perspective (b : ChessBoardState) : ChessBoardState :=
  { b with is_white_perspective := !b.is_white_perspective }

/-- `ChessBoardState.generate_coordinate` (game_logic.py lines 35-51).
The two `random.randint` draws are passed in as `file` and `rank`.
Returns ((algebraic notation, screen_col, screen_row), updated state). -/
def ChessBoardState.generate_coordinate (b : ChessBoardState) (file rank : ℤ) :
    (String × ℤ × ℤ) × ChessBoardState :=
  let algebraic := String.mk [Char.ofNat (65 + file).toNat] ++ toString rank
  let screen_col := file
  let screen_row := defaultConfig.GRID_SIZE - rank
  ((algebraic, screen_col, screen_row),
   { b with current_coordinate := some (screen_col, screen_row) })

/-- `ChessBoardState.validate_click` (game_logic.py lines 53-72): false when
no target is set; otherwise mirrors the canonical target on both axes when
the perspective is black and compares with the click for exact equality. -/
def ChessBoardState.validate_click (b : ChessBoardState) (click_x click_y : ℤ) : Bool :=
  match b.current_coordinate with
  | none => false
  | some (c, r) =>
    let target_col := if b.is_white_perspective then c else defaultConfig.GRID_SIZE - 1 - c
    let target_row := if b.is_white_perspective then r else defaultConfig.GRID_SIZE - 1 - r
    (click_x == target_col) && (click_y == target_row)

/-- Session aggregate: dataclass `GameSession` of src/src/core/stats.py
(the same five fields back class `GamePerformance` of game_logic.py).
`fastest_response = none` models the `float(inf)` sentinel. -/
structure GameSession where
  correct_clicks : ℕ
  wrong_clicks : ℕ
  total_response_time : ℚ
  fastest_response : Option ℚ
  slowest_response : ℚ
deriving DecidableEq

/-- The dataclass defaults of `GameSession` (equal to the post-`reset()`
state). -/
def GameSession.init : GameSession :=
  { correct_clicks := 0, wrong_clicks := 0, total_response_time := 0,
    fastest_response := none, slowest_response := 0 }

/-- `GameSession.reset` (stats.py lines 23-29): restores every field to its
initial value, whatever the prior state. -/
def GameSession.reset (_ : GameSession) : GameSession := GameSession.init

/-- `GameSession.record_attempt` (stats.py lines 31-45); the body of
`GamePerformance.record_attempt` (game_logic.py lines 122-136) is
identical. A correct attempt bumps the correct counter and folds the
response time into sum/min/max; a wrong attempt bumps the wrong counter
only. `min(inf, t) = t` gives the `none` case of the min update. -/
def GameSession.record_attempt (s : GameSession) (correct : Bool) (response_time : ℚ) :
    GameSession :=
  if correct then
    { s with
      correct_clicks := s.correct_clicks + 1,
      total_response_time := s.total_response_time + response_time,
      fastest_response := some (match s.fastest_response with
        | none => response_time
        | some q => min q response_time),
      slowest_response := max s.slowest_response response_time }
  else
    { s with wrong_clicks := s.wrong_clicks + 1 }

/-- `GameSession.calculate_score` (stats.py lines 47-67). Note the final
conversion is Python `int(...)`, i.e. truncation toward zero. -/
def GameSession.calculate_score (s : GameSession) : ℤ :=
  if s.correct_clicks = 0 then 0
  else
    let base_score : ℚ := (s.correct_clicks : ℚ) * 100
    let total_clicks : ℕ := s.correct_clicks + s.wrong_clicks
    let accuracy : ℚ := if 0 < total_clicks then (s.correct_clicks : ℚ) / (total_clicks : ℚ) else 0
    let accuracy_bonus := base_score * accuracy
    let avg_response_time := s.total_response_time / (s.correct_clicks : ℚ)
    let speed_bonus := max 0 (500 - avg_response_time * 100)
    let penalties : ℚ := (s.wrong_clicks : ℚ) * 50
    pyInt (base_score + accuracy_bonus + speed_bonus - penalties)

/-- `GamePerformance.calculate_score` (game_logic.py lines 138-158),
operating on the same five session fields; it differs from the stats.py
variant only in guarding the accuracy denominator with `max(1, total)` and
in reading the constants from the (default) `GameConfig`. -/
def GamePerformance.calculate_score (s : GameSession) : ℤ :=
  if s.correct_clicks = 0 then 0
  else
    let base_score : ℚ := (s.correct_clicks : ℚ) * (defaultConfig.BASE_SCORE_PER_CORRECT : ℚ)
    let accuracy : ℚ := (s.correct_clicks : ℚ) / ((max 1 (s.correct_clicks + s.wrong_clicks) : ℕ) : ℚ)
    let accuracy_bonus := base_score * accuracy
    let avg_response_time := s.total_response_time / (s.correct_clicks : ℚ)
    let speed_bonus := max 0 ((defaultConfig.SPEED_BONUS_MAX : ℚ) - avg_response_time * 100)
    let penalties : ℚ := (s.wrong_clicks : ℚ) * (defaultConfig.PENALTY_PER_WRONG : ℚ)
    pyInt (base_score + accuracy_bonus + speed_bonus - penalties)

/-- `GameSession.calculate_accuracy` (stats.py lines 91-99). -/
def GameSession.calculate_accuracy (s : GameSession) : ℚ :=
  let total_clicks := s.correct_clicks + s.wrong_clicks
  if 0 < total_clicks then (s.correct_clicks : ℚ) / (total_clicks : ℚ) * 100 else 0

/-- `GameSession.calculate_avg_response_time` (stats.py lines 101-108). -/
def GameSession.calculate_avg_response_time (s : GameSession) : ℚ :=
  if 0 < s.correct_clicks then s.total_response_time / (s.correct_clicks : ℚ) else 0

/-- The JSON object of a statistics file, as consumed by
`PerformanceTracker.load_statistics` (stats.py lines 420-450): each field is
`some` array when the key is present in the file and `none` when absent. -/
structure StatsData where
  score_history : Option (List ℤ)
  accuracy_history : Option (List ℚ)
  correct_clicks_history : Option (List ℕ)
  wrong_clicks_history : Option (List ℕ)
  avg_time_history : Option (List ℚ)
  fastest_time_history : Option (List ℚ)
  slowest_time_history : Option (List ℚ)
  timestamp : Option String
deriving DecidableEq

/-- Persistent state of class `PerformanceTracker` (stats.py lines 111-127):
the seven history lists plus the `last_loaded_timestamp` attribute (absent,
i.e. `none`, until a successful load). The matplotlib figure/axes fields are
presentation plumbing and are not modelled. -/
structure PerformanceTracker where
  score_history : List ℤ
  accuracy_history : List ℚ
  correct_clicks_history : List ℕ
  wrong_clicks_history : List ℕ
  avg_time_history : List ℚ
  fastest_time_history : List ℚ
  slowest_time_history : List ℚ
  last_loaded_timestamp : Option String
deriving DecidableEq

/-- `PerformanceTracker.__init__`: all seven history lists empty. -/
def PerformanceTracker.init : PerformanceTracker :=
  { score_history := [], accuracy_history := [], correct_clicks_history := [],
    wrong_clicks_history := [], avg_time_history := [], fastest_time_history := [],
    slowest_time_history := [], last_loaded_timestamp := none }

/-- `PerformanceTracker.record_session` (stats.py lines 190-206): appends one
derived value to each of the seven history lists. -/
def PerformanceTracker.record_session (t : PerformanceTracker) (score : ℤ)
    (session : GameSession) : PerformanceTracker :=
  { t with
    score_history := t.score_history ++ [score],
    accuracy_history := t.accuracy_history ++ [session.calculate_accuracy],
    correct_clicks_history := t.correct_clicks_history ++ [session.correct_clicks],
    wrong_clicks_history := t.wrong_clicks_history ++ [session.wrong_clicks],
    avg_time_history := t.avg_time_history ++ [session.calculate_avg_response_time],
    fastest_time_history := t.fastest_time_history ++
      [match session.fastest_response with | none => 0 | some q => q],
    slowest_time_history := t.slowest_time_history ++ [session.slowest_response] }

/-- `PerformanceTracker.load_statistics` (stats.py lines 431-450), after the
JSON has parsed. The Python body assigns the seven lists one after the
other; the first missing key raises `KeyError`, caught and re-raised as
`ValueError`, leaving the assignments already executed in place. The result
is the (possibly partially mutated) tracker together with the error message,
`none` on success. -/
def PerformanceTracker.load_statistics (t : PerformanceTracker) (d : StatsData) :
    PerformanceTracker × Option String :=
  match d.score_history with
  | none => (t, some "Invalid statistics file format: missing score_history")
  | some v1 =>
  let t1 := { t with score_history := v1 }
  match d.accuracy_history with
  | none => (t1, some "Invalid statistics file format: missing accuracy_history")
  | some v2 =>
  let t2 := { t1 with accuracy_history := v2 }
  match d.correct_clicks_history with
  | none => (t2, some "Invalid statistics file format: missing correct_clicks_history")
  | some v3 =>
  let t3 := { t2 with correct_clicks_history := v3 }
  match d.wrong_clicks_history with
  | none => (t3, some "Invalid statistics file format: missing wrong_clicks_history")
  | some v4 =>
  let t4 := { t3 with wrong_clicks_history := v4 }
  match d.avg_time_history with
  | none => (t4, some "Invalid statistics file format: missing avg_time_history")
  | some v5 =>
  let t5 := { t4 with avg_time_history := v5 }
  match d.fastest_time_history with
  | none => (t5, some "Invalid statistics file format: missing fastest_time_history")
  | some v6 =>
  let t6 := { t5 with fastest_time_history := v6 }
  match d.slowest_time_history with
  | none => (t6, some "Invalid statistics file format: missing slowest_time_history")
  | some v7 =>
  ({ t6 with slowest_time_history := v7, last_loaded_timestamp := d.timestamp }, none)

/-- `PerformanceTracker.load_statistics` including the `json.load` step: a
file that is not valid JSON (`none`) raises `json.JSONDecodeError`, caught
and re-raised as the distinct `ValueError` message (stats.py lines 449-450). -/
def PerformanceTracker.load_statistics_file (t : PerformanceTracker)
    (file : Option StatsData) : PerformanceTracker × Option String :=
  match file with
  | none => (t, some "Invalid JSON file format")
  | some d => t.load_statistics d

/-- Python attribute lookup of the name `reset_statistics` on a
`PerformanceTracker` instance: the class defines no such method (its methods
are `initialize_visualization`, `record_session`, `update_visualizations`,
the private plot helpers, `save_statistics`, `load_statistics`,
`get_last_timestamp` and `has_data`), so the lookup yields nothing and the
call site raises `AttributeError`. -/
def PerformanceTracker.getattr_reset_statistics :
    Option (PerformanceTracker → PerformanceTracker) := none

/-- `ChessTrainer.unload_statistics` (src/main.py lines 334-362), after the
user confirms the dialog. The `try` block first calls
`self.performance_tracker.reset_statistics()`; if that attribute lookup
fails, the raised `AttributeError` is caught by the `except Exception`
handler before `self.game_session.reset()` runs, an error dialog is shown,
and both the tracker and the session keep their prior state. -/
def ChessTrainer.unload_statistics (t : PerformanceTracker) (s : GameSession) :
    PerformanceTracker × GameSession × Option String :=
  match PerformanceTracker.getattr_reset_statistics with
  | some f => (f t, s.reset, none)
  | none => (t, s, some "Failed to unload statistics: PerformanceTracker object has no attribute reset_statistics")

/-- One operation on the long-term tracker, for stating history-length
invariants: recording a finished session, or loading a statistics file. -/
inductive TrackerOp where
  | record (score : ℤ) (session : GameSession)
  | load (d : StatsData)

/-- Applies one `TrackerOp`; for a load, the tracker that results whether or
not the load reports an error (mirroring that the Python object survives the
raised `ValueError`). -/
def applyTrackerOp (t : PerformanceTracker) (op : TrackerOp) : PerformanceTracker :=
  match op with
  | .record score session => t.record_session score session
  | .load d => (t.load_statistics d).1

/-- A statistics file that loads successfully and whose seven arrays all
have equal length: every key is present and the lengths agree. -/
def StatsData.completeUniform (d : StatsData) : Bool :=
  match d.score_history, d.accuracy_history, d.correct_clicks_history,
        d.wrong_clicks_history, d.avg_time_history, d.fastest_time_history,
        d.slowest_time_history with
  | some v1, some v2, some v3, some v4, some v5, some v6, some v7 =>
    (v2.length == v1.length) && (v3.length == v1.length) && (v4.length == v1.length) &&
    (v5.length == v1.length) && (v6.length == v1.length) && (v7.length == v1.length)
  | _, _, _, _, _, _, _ => false

/-- All seven history lists of a tracker have the same length. -/
def PerformanceTracker.uniformLen (t : PerformanceTracker) : Prop :=
  t.accuracy_history.length = t.score_history.length ∧
  t.correct_clicks_history.length = t.score_history.length ∧
  t.wrong_clicks_history.length = t.score_history.length ∧
  t.avg_time_history.length = t.score_history.length ∧
  t.fastest_time_history.length = t.score_history.length ∧
  t.slowest_time_history.length = t.score_history.length

/-- Folds a list of (is_correct, response_time) attempt events into a
session via `record_attempt`, in order. -/
def applyAttempts (s : GameSession) (attempts : List (Bool × ℚ)) : GameSession :=
  attempts.foldl (fun acc p => acc.record_attempt p.1 p.2) s

/-- Session invariant of the spec: whenever at least one correct attempt
has been recorded, the fastest response is a finite value that is at most
the slowest response. -/
def GameSession.fastestLeSlowest (s : GameSession) : Prop :=
  0 < s.correct_clicks →
    ∃ q, s.fastest_response = some q ∧ q ≤ s.slowest_response

/-- Side condition on a tracker operation: a session recording is always
allowed; a load must be of a complete file with seven equal-length arrays. -/
def TrackerOp.ok : TrackerOp → Prop
  | .record _ _ => True
  | .load d => d.completeUniform = true

/- ### Helper lemmas (shared) -/

theorem record_attempt_preserves_inv (s : GameSession) (c : Bool) (t : ℚ)
    (h : s.fastestLeSlowest) : (s.record_attempt c t).fastestLeSlowest := by
  unfold GameSession.fastestLeSlowest GameSession.record_attempt at *
  cases c with
  | false =>
    simp only [Bool.false_eq_true, if_false]
    exact fun hpos => h hpos
  | true =>
    simp only [if_true]
    intro _
    cases hf : s.fastest_response with
    | none => exact ⟨t, by simp [hf], le_max_right _ _⟩
    | some q =>
      exact ⟨min q t, by simp [hf], le_trans (min_le_right q t) (le_max_right _ _)⟩

theorem applyAttempts_preserves_inv (attempts : List (Bool × ℚ)) :
    ∀ s : GameSession, s.fastestLeSlowest → (applyAttempts s attempts).fastestLeSlowest := by
  induction attempts with
  | nil => exact fun s h => h
  | cons p rest ih =>
    intro s h
    exact ih _ (record_attempt_preserves_inv s p.1 p.2 h)

/- ### Claim theorems -/

/-- C2: with a target set at canonical position (c, r), `validate_click`
accepts exactly the target mirrored under the current perspective (identity
for white, both axes mirrored through N-1 = 7 for black); consequently a
click that validates before one `flip_perspective` validates at the mirrored
position afterwards. -/
theorem validate_click_mirror_iff (b : ChessBoardState) (c r x y : ℤ)
    (h : b.current_coordinate = some (c, r)) :
    (b.validate_click x y = true ↔
      (if b.is_white_perspective then (x, y) = (c, r) else (x, y) = (7 - c, 7 - r)))
    ∧ (b.validate_click x y = true →
        b.flip_perspective.validate_click (7 - x) (7 - y) = true) := by
  simp only [ChessBoardState.validate_click, ChessBoardState.flip_perspective, h]
  cases hw : b.is_white_perspective <;>
    · simp [defaultConfig, Prod.ext_iff]
      all_goals omega

/-- Witness for C2 at a concrete board: white perspective, target (2, 3),
click (2, 3). -/
theorem validate_click_mirror_iff_witness :
    ChessBoardState.validate_click ⟨true, some (2, 3)⟩ 2 3 = true :=
  ((validate_click_mirror_iff ⟨true, some (2, 3)⟩ 2 3 2 3 rfl).1).mpr (by simp)

/-- C4: with the two `randint` draws in their documented ranges
(file in [0, N-1], rank in [1, N], N = 8), `generate_coordinate` returns
the algebraic string built from letter and digit, returns and stores the
canonical grid position (file, N - rank), and both components of that
position lie in [0, 7]. -/
theorem generate_coordinate_ranges (b : ChessBoardState) (file rank : ℤ)
    (hf : 0 ≤ file ∧ file ≤ defaultConfig.GRID_SIZE - 1)
    (hr : 1 ≤ rank ∧ rank ≤ defaultConfig.GRID_SIZE) :
    (b.generate_coordinate file rank).1 =
      (String.mk [Char.ofNat (65 + file).toNat] ++ toString rank, file, 8 - rank)
    ∧ (b.generate_coordinate file rank).2.current_coordinate = some (file, 8 - rank)
    ∧ (0 ≤ file ∧ file ≤ 7) ∧ (0 ≤ 8 - rank ∧ 8 - rank ≤ 7) := by
  simp only [defaultConfig] at hf hr
  refine ⟨?_, ?_, by omega, by omega⟩ <;>
    · simp [ChessBoardState.generate_coordinate, defaultConfig]

/-- Witness for C4: drawing file = 0, rank = 1 on a fresh board stores the
grid position (0, 7). -/
theorem generate_coordinate_ranges_witness :
    (ChessBoardState.init.generate_coordinate 0 1).2.current_coordinate = some (0, 7) :=
  (generate_coordinate_ranges ChessBoardState.init 0 1 (by decide) (by decide)).2.1

/-- C6: recording a wrong attempt increments only `wrong_clicks`; the
correct counter, the response-time sum and both extrema are untouched,
whatever response time is passed. -/
theorem record_attempt_wrong_frame (s : GameSession) (t : ℚ) :
    (s.record_attempt false t).wrong_clicks = s.wrong_clicks + 1
    ∧ (s.record_attempt false t).correct_clicks = s.correct_clicks
    ∧ (s.record_attempt false t).total_response_time = s.total_response_time
    ∧ (s.record_attempt false t).fastest_response = s.fastest_response
    ∧ (s.record_attempt false t).slowest_response = s.slowest_response := by
  simp [GameSession.record_attempt]

/-- C8: with 10 correct and no wrong clicks, the score at total response
time 10 exceeds the score at total response time 30; and 10 correct / 0
wrong / total time 10 beats 10 correct / 5 wrong / total time 15. -/
theorem calculate_score_comparisons :
    GameSession.calculate_score ⟨10, 0, 10, some 1, 1⟩ >
      GameSession.calculate_score ⟨10, 0, 30, some 3, 3⟩
    ∧ GameSession.calculate_score ⟨10, 0, 10, some 1, 1⟩ >
      GameSession.calculate_score ⟨10, 5, 15, some 1, 2⟩ := by
  norm_num [GameSession.calculate_score, pyInt]

/-- C1 counterexample: with 1 correct click, 10 wrong clicks and total
response time 500, both score implementations return -390, but the floor of
the specified sum base + accuracy_bonus + speed_bonus - penalty (here
-4300/11) is -391: Python `int()` truncates toward zero rather than
flooring, so the claimed formula fails on negative fractional sums. -/
theorem calculate_score_not_floor :
    GameSession.calculate_score ⟨1, 10, 500, some 500, 500⟩ = -390
    ∧ GamePerformance.calculate_score ⟨1, 10, 500, some 500, 500⟩ = -390
    ∧ (⌊(1 : ℚ) * 100 + (1 : ℚ) * 100 * ((1 : ℚ) / ((1 : ℚ) + (10 : ℚ)))
        + max 0 (500 - (500 : ℚ) / (1 : ℚ) * 100) - (10 : ℚ) * 50⌋ : ℤ) = -391 := by
  refine ⟨?_, ?_, ?_⟩
  · norm_num [GameSession.calculate_score, pyInt, Int.ceil_neg]
  · norm_num [GamePerformance.calculate_score, pyInt, Int.ceil_neg, defaultConfig]
  · norm_num [Int.floor_eq_iff]

/-- C1 (amended): the score is 0 when correct_count = 0 regardless of
wrong_count; otherwise it is the Python `int()` (truncation toward zero,
not floor) of base + accuracy_bonus + speed_bonus - penalty with
base = correct*100, accuracy_bonus = base*correct/(correct+wrong),
speed_bonus = max(0, 500 - (total_time/correct)*100) and
penalty = wrong*50; the game_logic.py variant agrees with the stats.py
variant on every state. -/
theorem calculate_score_formula (s : GameSession) :
    (s.correct_clicks = 0 →
      s.calculate_score = 0 ∧ GamePerformance.calculate_score s = 0)
    ∧ (0 < s.correct_clicks →
      s.calculate_score =
        pyInt ((s.correct_clicks : ℚ) * 100
          + (s.correct_clicks : ℚ) * 100 *
            ((s.correct_clicks : ℚ) / ((s.correct_clicks : ℚ) + (s.wrong_clicks : ℚ)))
          + max 0 (500 - s.total_response_time / (s.correct_clicks : ℚ) * 100)
          - (s.wrong_clicks : ℚ) * 50)
      ∧ GamePerformance.calculate_score s = s.calculate_score) := by
  constructor
  · intro h
    simp [GameSession.calculate_score, GamePerformance.calculate_score, h]
  · intro h
    have h0 : s.correct_clicks ≠ 0 := Nat.pos_iff_ne_zero.mp h
    have hl : 0 < s.correct_clicks + s.wrong_clicks := by omega
    have hmax : max 1 (s.correct_clicks + s.wrong_clicks) = s.correct_clicks + s.wrong_clicks :=
      Nat.max_eq_right hl
    constructor
    · simp only [GameSession.calculate_score, if_neg h0, if_pos hl]
      congr 1
      push_cast
      ring
    · simp only [GameSession.calculate_score, GamePerformance.calculate_score,
        if_neg h0, if_pos hl, hmax, defaultConfig]
      congr 1

/-- Witness for C1 (amended): a session with no correct clicks and five
wrong clicks scores 0 under both implementations. -/
theorem calculate_score_formula_witness :
    GameSession.calculate_score ⟨0, 5, 0, none, 0⟩ = 0
      ∧ GamePerformance.calculate_score ⟨0, 5, 0, none, 0⟩ = 0 :=
  (calculate_score_formula ⟨0, 5, 0, none, 0⟩).1 rfl

/-- C5: for any sequence of attempts recorded after a reset, each with a
nonnegative response time, the session satisfies
fastest_response ≤ slowest_response (with the fastest finite) whenever at
least one correct attempt was recorded. -/
theorem fastest_le_slowest_invariant (s0 : GameSession) (attempts : List (Bool × ℚ))
    (_hnn : ∀ p ∈ attempts, 0 ≤ p.2)
    (hpos : 0 < (applyAttempts s0.reset attempts).correct_clicks) :
    ∃ q, (applyAttempts s0.reset attempts).fastest_response = some q ∧
      q ≤ (applyAttempts s0.reset attempts).slowest_response :=
  applyAttempts_preserves_inv attempts s0.reset
    (by intro h; simp [GameSession.reset, GameSession.init] at h) hpos

/-- Witness for C5: one correct attempt at response time 1 after a reset
leaves fastest = slowest = 1. -/
theorem fastest_le_slowest_invariant_witness :
    ∃ q, (applyAttempts (GameSession.reset GameSession.init) [(true, 1)]).fastest_response
        = some q ∧
      q ≤ (applyAttempts (GameSession.reset GameSession.init) [(true, 1)]).slowest_response :=
  fastest_le_slowest_invariant GameSession.init [(true, 1)]
    (by intro p hp; simp at hp; simp [hp]) (by decide)

/-- C3 counterexample: loading data that contains score_history = [100] but
is missing accuracy_history reports an error, yet score_history has already
been replaced: the load is partially applied, so the all-or-nothing claim
fails. -/
theorem load_statistics_not_atomic :
    (StatsData.mk (some [100]) none none none none none none none).accuracy_history = none
    ∧ (PerformanceTracker.init.load_statistics
        (StatsData.mk (some [100]) none none none none none none none)).2.isSome = true
    ∧ (PerformanceTracker.init.load_statistics
        (StatsData.mk (some [100]) none none none none none none none)).1.score_history
      ≠ PerformanceTracker.init.score_history := by
  refine ⟨rfl, rfl, ?_⟩
  simp [PerformanceTracker.load_statistics, PerformanceTracker.init]

/-- C3 (amended): a load with a missing required key reports the error but
is applied up to the first missing key: the lists for keys that precede the
first absent one, in the fixed assignment order score, accuracy, correct,
wrong, avg, fastest, slowest, are replaced by the file's arrays, while every
later list (and the timestamp) keeps its prior value; only when the very
first key, score_history, is absent does the tracker stay entirely
unchanged, and when all seven keys are present all seven lists are
replaced. -/
theorem load_statistics_sequential (t : PerformanceTracker) (d : StatsData) :
    (d.score_history = none →
      t.load_statistics d =
        (t, some "Invalid statistics file format: missing score_history"))
    ∧ (∀ v1, d.score_history = some v1 → d.accuracy_history = none →
      t.load_statistics d =
        ({ t with score_history := v1 },
         some "Invalid statistics file format: missing accuracy_history"))
    ∧ (∀ v1 v2, d.score_history = some v1 → d.accuracy_history = some v2 →
      d.correct_clicks_history = none →
      t.load_statistics d =
        ({ t with score_history := v1, accuracy_history := v2 },
         some "Invalid statistics file format: missing correct_clicks_history"))
    ∧ (∀ v1 v2 v3, d.score_history = some v1 → d.accuracy_history = some v2 →
      d.correct_clicks_history = some v3 → d.wrong_clicks_history = none →
      t.load_statistics d =
        ({ t with score_history := v1, accuracy_history := v2,
                  correct_clicks_history := v3 },
         some "Invalid statistics file format: missing wrong_clicks_history"))
    ∧ (∀ v1 v2 v3 v4, d.score_history = some v1 → d.accuracy_history = some v2 →
      d.correct_clicks_history = some v3 → d.wrong_clicks_history = some v4 →
      d.avg_time_history = none →
      t.load_statistics d =
        ({ t with score_history := v1, accuracy_history := v2,
                  correct_clicks_history := v3, wrong_clicks_history := v4 },
         some "Invalid statistics file format: missing avg_time_history"))
    ∧ (∀ v1 v2 v3 v4 v5, d.score_history = some v1 → d.accuracy_history = some v2 →
      d.correct_clicks_history = some v3 → d.wrong_clicks_history = some v4 →
      d.avg_time_history = some v5 → d.fastest_time_history = none →
      t.load_statistics d =
        ({ t with score_history := v1, accuracy_history := v2,
                  correct_clicks_history := v3, wrong_clicks_history := v4,
                  avg_time_history := v5 },
         some "Invalid statistics file format: missing fastest_time_history"))
    ∧ (∀ v1 v2 v3 v4 v5 v6, d.score_history = some v1 → d.accuracy_history = some v2 →
      d.correct_clicks_history = some v3 → d.wrong_clicks_history = some v4 →
      d.avg_time_history = some v5 → d.fastest_time_history = some v6 →
      d.slowest_time_history = none →
      t.load_statistics d =
        ({ t with score_history := v1, accuracy_history := v2,
                  correct_clicks_history := v3, wrong_clicks_history := v4,
                  avg_time_history := v5, fastest_time_history := v6 },
         some "Invalid statistics file format: missing slowest_time_history"))
    ∧ (∀ v1 v2 v3 v4 v5 v6 v7, d.score_history = some v1 → d.accuracy_history = some v2 →
      d.correct_clicks_history = some v3 → d.wrong_clicks_history = some v4 →
      d.avg_time_history = some v5 → d.fastest_time_history = some v6 →
      d.slowest_time_history = some v7 →
      t.load_statistics d =
        ({ t with score_history := v1, accuracy_history := v2,
                  correct_clicks_history := v3, wrong_clicks_history := v4,
                  avg_time_history := v5, fastest_time_history := v6,
                  slowest_time_history := v7,
                  last_loaded_timestamp := d.timestamp }, none)) := by
  refine ⟨?_, ?_, ?_, ?_, ?_, ?_, ?_, ?_⟩ <;>
    · intros
      simp_all [PerformanceTracker.load_statistics]

/-- Witness for C3 (amended): loading an entirely empty object leaves a
fresh tracker unchanged and reports the missing score_history key. -/
theorem load_statistics_sequential_witness :
    PerformanceTracker.init.load_statistics
        (StatsData.mk none none none none none none none none) =
      (PerformanceTracker.init,
       some "Invalid statistics file format: missing score_history") :=
  (load_statistics_sequential PerformanceTracker.init
    (StatsData.mk none none none none none none none none)).1 rfl

/-- C7: a load whose parsed object is missing any of the seven required
array keys reports a catchable error (the ValueError message naming the
missing key), a file that is not valid JSON reports the distinct message
"Invalid JSON file format", and a load with all seven keys present succeeds
and replaces the seven history lists with the file's arrays. -/
theorem load_statistics_error_reporting (t : PerformanceTracker)
    (file : Option StatsData) :
    (file = none →
      t.load_statistics_file file = (t, some "Invalid JSON file format"))
    ∧ (∀ d, file = some d →
      ((d.score_history = none ∨ d.accuracy_history = none ∨
        d.correct_clicks_history = none ∨ d.wrong_clicks_history = none ∨
        d.avg_time_history = none ∨ d.fastest_time_history = none ∨
        d.slowest_time_history = none) →
        ∃ e, (t.load_statistics_file file).2 = some e ∧ e ≠ "Invalid JSON file format")
      ∧ (∀ v1 v2 v3 v4 v5 v6 v7,
        d.score_history = some v1 → d.accuracy_history = some v2 →
        d.correct_clicks_history = some v3 → d.wrong_clicks_history = some v4 →
        d.avg_time_history = some v5 → d.fastest_time_history = some v6 →
        d.slowest_time_history = some v7 →
        (t.load_statistics_file file).2 = none
        ∧ (t.load_statistics_file file).1.score_history = v1
        ∧ (t.load_statistics_file file).1.accuracy_history = v2
        ∧ (t.load_statistics_file file).1.correct_clicks_history = v3
        ∧ (t.load_statistics_file file).1.wrong_clicks_history = v4
        ∧ (t.load_statistics_file file).1.avg_time_history = v5
        ∧ (t.load_statistics_file file).1.fastest_time_history = v6
        ∧ (t.load_statistics_file file).1.slowest_time_history = v7)) := by
  constructor
  · intro hf
    simp [PerformanceTracker.load_statistics_file, hf]
  · rintro d rfl
    constructor
    · intro hmiss
      simp only [PerformanceTracker.load_statistics_file]
      obtain ⟨o1, o2, o3, o4, o5, o6, o7, ts⟩ := d
      rcases o1 with _ | v1 <;> rcases o2 with _ | v2 <;> rcases o3 with _ | v3 <;>
        rcases o4 with _ | v4 <;> rcases o5 with _ | v5 <;> rcases o6 with _ | v6 <;>
        rcases o7 with _ | v7 <;>
        simp_all [PerformanceTracker.load_statistics]
    · intro v1 v2 v3 v4 v5 v6 v7 h1 h2 h3 h4 h5 h6 h7
      simp [PerformanceTracker.load_statistics_file, PerformanceTracker.load_statistics,
        h1, h2, h3, h4, h5, h6, h7]

/-- Witness for C7: loading a malformed (non-JSON) file reports the distinct
JSON error and leaves the tracker unchanged. -/
theorem load_statistics_error_reporting_witness :
    PerformanceTracker.init.load_statistics_file none =
      (PerformanceTracker.init, some "Invalid JSON file format") :=
  (load_statistics_error_reporting PerformanceTracker.init none).1 rfl

/-- C9: the unload operation does NOT empty the history lists. The call
site main.py:340 invokes `reset_statistics()` on the tracker, but class
`PerformanceTracker` defines no such method, so the attempt raises
`AttributeError`, the surrounding handler reports a failure, and a tracker
holding score_history = [100] keeps every entry. This contradicts the
method's own docstring and success dialog, so it is a defect in the code
rather than in the claim. -/
theorem unload_statistics_keeps_entries :
    (ChessTrainer.unload_statistics
        { PerformanceTracker.init with score_history := [100] } GameSession.init).1 =
      { PerformanceTracker.init with score_history := [100] }
    ∧ ((ChessTrainer.unload_statistics
        { PerformanceTracker.init with score_history := [100] } GameSession.init).2.2).isSome
        = true
    ∧ (ChessTrainer.unload_statistics
        { PerformanceTracker.init with score_history := [100] } GameSession.init).1.score_history
        ≠ [] := by
  refine ⟨rfl, rfl, ?_⟩
  simp [ChessTrainer.unload_statistics, PerformanceTracker.getattr_reset_statistics,
    PerformanceTracker.init]

/- ### Helper lemmas for the history-length invariant -/

theorem record_session_preserves_uniformLen (t : PerformanceTracker) (score : ℤ)
    (s : GameSession) (h : t.uniformLen) : (t.record_session score s).uniformLen := by
  obtain ⟨h1, h2, h3, h4, h5, h6⟩ := h
  simp [PerformanceTracker.record_session, PerformanceTracker.uniformLen,
    h1, h2, h3, h4, h5, h6]

theorem load_completeUniform_uniformLen (t : PerformanceTracker) (d : StatsData)
    (hd : d.completeUniform = true) : ((t.load_statistics d).1).uniformLen := by
  obtain ⟨o1, o2, o3, o4, o5, o6, o7, ts⟩ := d
  rcases o1 with _ | v1 <;> rcases o2 with _ | v2 <;> rcases o3 with _ | v3 <;>
    rcases o4 with _ | v4 <;> rcases o5 with _ | v5 <;> rcases o6 with _ | v6 <;>
    rcases o7 with _ | v7 <;>
    simp_all [StatsData.completeUniform, PerformanceTracker.load_statistics,
      PerformanceTracker.uniformLen]

theorem foldl_trackerOps_uniformLen (ops : List TrackerOp) :
    ∀ t : PerformanceTracker, t.uniformLen → (∀ op ∈ ops, op.ok) →
      (ops.foldl applyTrackerOp t).uniformLen := by
  induction ops with
  | nil => exact fun t ht _ => ht
  | cons op rest ih =>
    intro t ht hall
    simp only [List.foldl_cons]
    refine ih _ ?_ (fun op' hop' => hall op' (List.mem_cons_of_mem op hop'))
    have hop : op.ok := hall op (List.mem_cons_self op rest)
    cases op with
    | record score s => exact record_session_preserves_uniformLen t score s ht
    | load d => exact load_completeUniform_uniformLen t d hop

/-- C10: every `record_session` call appends exactly one element to each of
the seven history lists, and after any sequence of session recordings and
successful equal-length loads applied to a fresh tracker, all seven history
lists have equal length. -/
theorem record_session_uniform_length (ops : List TrackerOp)
    (h : ∀ op ∈ ops, op.ok) :
    (∀ (t : PerformanceTracker) (score : ℤ) (s : GameSession),
      (t.record_session score s).score_history.length = t.score_history.length + 1
      ∧ (t.record_session score s).accuracy_history.length = t.accuracy_history.length + 1
      ∧ (t.record_session score s).correct_clicks_history.length
          = t.correct_clicks_history.length + 1
      ∧ (t.record_session score s).wrong_clicks_history.length
          = t.wrong_clicks_history.length + 1
      ∧ (t.record_session score s).avg_time_history.length = t.avg_time_history.length + 1
      ∧ (t.record_session score s).fastest_time_history.length
          = t.fastest_time_history.length + 1
      ∧ (t.record_session score s).slowest_time_history.length
          = t.slowest_time_history.length + 1)
    ∧ (ops.foldl applyTrackerOp PerformanceTracker.init).uniformLen := by
  constructor
  · intro t score s
    simp [PerformanceTracker.record_session]
  · exact foldl_trackerOps_uniformLen ops PerformanceTracker.init
      (by simp [PerformanceTracker.init, PerformanceTracker.uniformLen]) h

/-- Witness for C10: one recorded session followed by a successful load of a
file whose seven arrays all have length one leaves equal-length lists. -/
theorem record_session_uniform_length_witness :
    (([TrackerOp.record 100 GameSession.init,
       TrackerOp.load (StatsData.mk (some [1]) (some [2]) (some [3]) (some [4])
         (some [5]) (some [6]) (some [7]) none)]).foldl
        applyTrackerOp PerformanceTracker.init).uniformLen :=
  (record_session_uniform_length
    [TrackerOp.record 100 GameSession.init,
     TrackerOp.load (StatsData.mk (some [1]) (some [2]) (some [3]) (some [4])
       (some [5]) (some [6]) (some [7]) none)]
    (by intro op hop
        simp only [List.mem_cons, List.mem_singleton] at hop
        rcases hop with h | h | h
        · subst h; trivial
        · subst h; rfl
        · exact absurd h (by simp))).2
